import Mathlib

/-
  Verification of the gdrive wrapper (src/gdrive.py).

  Shallow embedding: the pure address arithmetic of the `Spreadsheet` class is
  translated directly; the stateful `DriveFolder` methods are translated as
  state-passing functions whose remote behaviour (page listings, download and
  upload outcomes, metadata fetches) is supplied as explicit environment
  arguments.  Python `assert` failures and uncaught `TypeError`s are modelled
  by `Option`/dedicated result constructors; an `HttpError` caught at a call
  site is the environment's failure case.
-/

namespace GDrive

/-- A file entry as returned by the Drive listing: the source requests
`fields='nextPageToken, files(id, name)'`, so each entry carries `id` and
`name`. -/
structure GFile where
  id : String
  name : String
deriving DecidableEq, Repr

/-- Contents of an `io.BytesIO` buffer. -/
abbrev ByteBuf := List Nat

/-- Outcome of a Python call that may escape with an uncaught exception
(`TypeError` from iterating `None`, `AssertionError`, ...). -/
inductive PyResult (α : Type) where
  | ok (a : α) : PyResult α
  | crash : PyResult α
deriving DecidableEq, Repr

/-- One remote answer to a `files().list(...).execute()` call: either an
`HttpError` or a page of files together with whether a `nextPageToken` was
present. -/
inductive PageResp where
  | err : PageResp
  | page (files : List GFile) (hasNext : Bool) : PageResp
deriving DecidableEq, Repr

/-- Python dict assignment `d[k] = v` on an association list: replaces the
value of an existing key in place, otherwise appends. -/
def dictInsert {α : Type} : List (String × α) → String → α → List (String × α)
  | [], k, v => [(k, v)]
  | (k', v') :: rest, k, v =>
    if k' = k then (k, v) :: rest else (k', v') :: dictInsert rest k v

/-- Python dict lookup `d.get(k)` on an association list. -/
def dictGet {α : Type} : List (String × α) → String → Option α
  | [], _ => none
  | (k', v') :: rest, k => if k' = k then some v' else dictGet rest k

namespace DriveFolder

/-- The query string built by `list_files` (src/gdrive.py lines 133-138):
`f"'{self.id}' in parents and trashed=false"`, extended — when the
mimetype list is non-empty — with
`" and (mimeType='m0'" + (" or mimeType='mi'")* + ")"`. -/
def build_query (folder_id : String) (mimetypes : List String) : String :=
  let base := "'" ++ folder_id ++ "' in parents and trashed=false"
  match mimetypes with
  | [] => base
  | m :: rest =>
    (rest.foldl (fun q mt => q ++ " or mimeType='" ++ mt ++ "'")
      (base ++ " and (mimeType='" ++ m ++ "'")) ++ ")"

/-- Modelled from the spec: "the disjunction of exactly the given MIME
types" — the textual disjunction `mimeType='m0' or mimeType='m1' or ...`
over exactly the given list. -/
def mimeDisjunction : List String → String
  | [] => ""
  | [m] => "mimeType='" ++ m ++ "'"
  | m :: rest => "mimeType='" ++ m ++ "'" ++ " or " ++ mimeDisjunction rest

/-- The paging loop of `list_files` (src/gdrive.py lines 140-154): each
response is consumed in order;`files.extend(...)` accumulates page contents;
the loop exits when no `nextPageToken` is returned; an `HttpError` at any
page replaces the whole accumulator with `None` (lines 155-157).  An
exhausted response list (which a real server never produces mid-paging)
returns the accumulator. -/
def list_files_pages : List PageResp → List GFile → Option (List GFile)
  | [], acc => some acc
  | r :: rs, acc =>
    match r with
    | .err => none
    | .page fs hasNext =>
      if hasNext then list_files_pages rs (acc ++ fs) else some (acc ++ fs)

/-- A well-formed multi-page remote answer: every page advertises a next
page except the last. -/
def encodePages : List (List GFile) → List PageResp
  | [] => []
  | [fs] => [.page fs false]
  | fs :: rest => .page fs true :: encodePages rest

end DriveFolder

/-- A `DriveFolder` object's own attributes (src/gdrive.py lines 90-98):
remote id, display name, parent back-reference (modelled by the parent's
id, `none` at the root — the source stores the parent object itself, a
non-owning back-reference), and the `children` dict mapping a name to the
child node. -/
inductive DriveFolder where
  | mk (id : String) (name : String) (parent : Option String)
       (children : List (String × DriveFolder)) : DriveFolder

def DriveFolder.id : DriveFolder → String
  | .mk i _ _ _ => i

def DriveFolder.name : DriveFolder → String
  | .mk _ n _ _ => n

def DriveFolder.parent : DriveFolder → Option String
  | .mk _ _ p _ => p

def DriveFolder.children : DriveFolder → List (String × DriveFolder)
  | .mk _ _ _ c => c

/-- The remote folder tree seen by recursive construction: for one folder,
either its folder-listing call fails (`list_files` returned `None`), or it
returns a flattened list of subfolder entries, each with that subfolder's
own subtree. -/
inductive RemoteTree where
  | fail : RemoteTree
  | ok (subs : List (GFile × RemoteTree)) : RemoteTree

mutual

/-- `DriveFolder.__init__` (src/gdrive.py lines 77-98): sets `id`, `name`,
`parent`, `children = {}`, lists subfolders, and recursively constructs one
child per listed folder, keyed by name.  When the listing failed
(`list_files` returned `None`) the `for f in folders` loop raises an
uncaught `TypeError`, modelled by `crash`. -/
def construct (folder_id name : String) (parent : Option String) :
    RemoteTree → PyResult DriveFolder
  | .fail => .crash
  | .ok subs =>
    match constructChildren folder_id subs [] with
    | .crash => .crash
    | .ok cs => .ok (.mk folder_id name parent cs)

/-- The `for f in folders: self.children[f["name"]] = DriveFolder(...)`
loop (src/gdrive.py lines 97-98), accumulating into the children dict;
a crash inside any child construction propagates. -/
def constructChildren (parent_id : String) :
    List (GFile × RemoteTree) → List (String × DriveFolder) →
    PyResult (List (String × DriveFolder))
  | [], acc => .ok acc
  | (f, t) :: rest, acc =>
    match construct f.id f.name (some parent_id) t with
    | .crash => .crash
    | .ok child => constructChildren parent_id rest (dictInsert acc f.name child)

end

namespace DriveFolder

/-- `list_files` (src/gdrive.py lines 121-158) as a state-passing function:
the first result component is the query string sent to the remote, the
second the returned value (`None` on `HttpError`).  The method reads
`self.id` and writes no attribute. -/
def list_files (st : DriveFolder) (mimetypes : List String)
    (pages : List PageResp) : (String × Option (List GFile)) × DriveFolder :=
  ((build_query st.id mimetypes, list_files_pages pages []), st)

/-- `download_file` (src/gdrive.py lines 160-181): the chunked transfer of
one file is remote-client mechanics, so its outcome per file id is the
environment `dl` (`none` = `HttpError`, caught and converted to `None`). -/
def download_file (st : DriveFolder) (file_id : String)
    (dl : String → Option ByteBuf) : Option ByteBuf × DriveFolder :=
  (dl file_id, st)

/-- `download_files` (src/gdrive.py lines 183-202): iterates over
`self.list_files(mimetypes)` — so a `None` listing raises an uncaught
`TypeError` (`crash`) — appending `(file name, download_file result)` per
listed file. -/
def download_files (st : DriveFolder) (mimetypes : List String)
    (pages : List PageResp) (dl : String → Option ByteBuf) :
    PyResult (List (String × Option ByteBuf)) × DriveFolder :=
  match (list_files st mimetypes pages).1.2 with
  | none => (.crash, st)
  | some fs =>
    (.ok (fs.foldl (fun acc f => acc ++ [(f.name, (download_file st f.id dl).1)]) []),
     st)

/-- `os.path.basename` for the slash-separated paths the module handles. -/
def basename (p : String) : String :=
  (p.splitOn "/").getLastD ""

/-- `upload_file` (src/gdrive.py lines 204-235): chooses the remote name,
builds the metadata `{'name': name, 'parents': [self.id]}`, and performs
the resumable upload whose outcome is the environment `createRes`
(`none` = `HttpError`, caught, returns `None`; `some fid` = the created
file's id). -/
def upload_file (st : DriveFolder) (file_path : String) (new_name : String)
    (createRes : Option String) : Option String × DriveFolder :=
  let name := if new_name ≠ "" then new_name else basename file_path
  let _metadata := (name, [st.id])
  (createRes, st)

/-- `upload_files` (src/gdrive.py lines 237-250): a per-path list
comprehension over `upload_file`; `env` gives each path's upload outcome. -/
def upload_files (st : DriveFolder) (file_paths : List String)
    (env : String → Option String) : List (Option String) × DriveFolder :=
  (file_paths.map (fun p => (upload_file st p "" (env p)).1), st)

/-- `upload_files_from_dir` (src/gdrive.py lines 252-268): filters the
directory entries (`entries` pairs a name with `os.path.isfile`) to plain
files, joins each to `dir_path`, and delegates to `upload_files`. -/
def upload_files_from_dir (st : DriveFolder) (dir_path : String)
    (entries : List (String × Bool)) (env : String → Option String) :
    List (Option String) × DriveFolder :=
  upload_files st
    ((entries.filter (fun e => e.2)).map (fun e => dir_path ++ "/" ++ e.1)) env

/-- Outcome of `move_file_from_folder`. -/
inductive MoveResult where
  | retNone : MoveResult
  | retParents (ps : List String) : MoveResult
  | assertAbort : MoveResult
deriving DecidableEq, Repr

/-- `move_file_from_folder` (src/gdrive.py lines 270-295): fetches the
file's parents (`getRes`; `Except.error` = `HttpError`, caught at line 293,
returns `None`), asserts `self.id in parents` — an `AssertionError` is NOT
an `HttpError`, so it escapes the `try` (`assertAbort`) — then issues the
update (`addParents=new_folder.id, removeParents=self.id`; outcome
`updRes`).  The middle result component records the `(addParents,
removeParents)` request actually sent, `none` when no update was issued. -/
def move_file_from_folder (st : DriveFolder) (file_id : String)
    (new_folder_id : String) (getRes : Except Unit (List String))
    (updRes : Except Unit (List String)) :
    MoveResult × Option (String × String) × DriveFolder :=
  let _ := file_id
  match getRes with
  | .error _ => (.retNone, none, st)
  | .ok parents =>
    if st.id ∈ parents then
      match updRes with
      | .error _ => (.retNone, some (new_folder_id, st.id), st)
      | .ok ps => (.retParents ps, some (new_folder_id, st.id), st)
    else (.assertAbort, none, st)

/-- `create_subfolder` (src/gdrive.py lines 297-326): the remote create
call's outcome is `createRes` (`none` = `HttpError`, caught, returns `None`
with no local change); on success a `DriveFolder` wrapper is constructed —
`childTree` is the remote tree behind the new folder; a crash inside that
construction escapes before the children dict is touched — and registered
under `name`, overwriting any prior entry. -/
def create_subfolder (st : DriveFolder) (name : String)
    (createRes : Option String) (childTree : RemoteTree) :
    PyResult (Option DriveFolder) × DriveFolder :=
  match createRes with
  | none => (.ok none, st)
  | some new_id =>
    match construct new_id name (some st.id) childTree with
    | .crash => (.crash, st)
    | .ok node =>
      (.ok (some node),
       .mk st.id st.name st.parent (dictInsert st.children name node))

end DriveFolder

namespace Spreadsheet

/-- The `while` loop of `col_num_to_letter` (src/gdrive.py lines 379-381),
with `start = 0` inlined.  Python's `int((num - start) / 26)` is true division
truncated, i.e. `num / 26` on naturals; `num - (num // 26) * 26` strictly
decreases `num` while `num > 25`. -/
def colLoop (num : Nat) (letter : String) : String :=
  if 25 < num then
    colLoop (num - num / 26 * 26) (letter.push (Char.ofNat (65 + num / 26 - 1)))
  else
    letter.push (Char.ofNat (65 + num))
termination_by num
decreasing_by omega

/-- `Spreadsheet.col_num_to_letter` (src/gdrive.py lines 366-383). -/
def col_num_to_letter (num : Nat) : String :=
  colLoop num ""

/-- `Spreadsheet.sheets_range` (src/gdrive.py lines 385-402).  The two
`assert` statements are modelled by `Option`: `none` means the assertion
fails (`AssertionError` aborts the call). -/
def sheets_range (cell_range : (Nat × Nat) × (Nat × Nat)) : Option String :=
  let start := cell_range.1
  let stop := cell_range.2
  if start.1 ≤ stop.1 then
    if start.2 ≤ stop.2 then
      some (col_num_to_letter start.2 ++ (start.1 + 1).repr ++ ":" ++
            col_num_to_letter stop.2 ++ (stop.1 + 1).repr)
    else none
  else none

/-- The A1-range computation of `write_to_sheet` (src/gdrive.py lines
448-463): `end_cell = (start_cell[0] + len(values) - 1,
start_cell[0] + len(values[0]) - 1)` — note the source reuses the row
offset `start_cell[0]` in the column component — followed by
`f"'{sheet_name}'!{Spreadsheet.sheets_range((start_cell, end_cell))}"`.
`none` models the `AssertionError` escaping from `sheets_range`
(`write_to_sheet` does not catch it).  `values` is assumed non-empty as in
the source, where `values[0]` would otherwise raise. -/
def write_to_sheet_range (sheet_name : String) (values : List (List String))
    (start_cell : Nat × Nat) : Option String :=
  let end_cell : Nat × Nat :=
    (start_cell.1 + values.length - 1, start_cell.1 + (values.headD []).length - 1)
  match sheets_range (start_cell, end_cell) with
  | none => none
  | some r => some ("'" ++ sheet_name ++ "'!" ++ r)

end Spreadsheet

namespace DriveFolder

theorem str_append_assoc (a b c : String) : a ++ b ++ c = a ++ (b ++ c) :=
  String.ext (by simp)

/-- The accumulating fold of `build_query` over the remaining MIME types
produces exactly the textual disjunction over all given types. -/
theorem build_query_foldl (rest : List String) (q m : String) :
    rest.foldl (fun q mt => q ++ " or mimeType='" ++ mt ++ "'")
        (q ++ ("mimeType='" ++ m ++ "'"))
      = q ++ mimeDisjunction (m :: rest) := by
  induction rest generalizing q m with
  | nil => simp [mimeDisjunction]
  | cons m2 r2 ih =>
    simp only [List.foldl_cons]
    have h1 : q ++ ("mimeType='" ++ m ++ "'") ++ " or mimeType='" ++ m2 ++ "'"
        = (q ++ ("mimeType='" ++ m ++ "'" ++ " or "))
            ++ ("mimeType='" ++ m2 ++ "'") := by
      rw [show (" or mimeType='" : String) = " or " ++ "mimeType='" from rfl]
      simp only [str_append_assoc]
    rw [h1, ih]
    simp only [mimeDisjunction, str_append_assoc]

theorem dictGet_insert_self {α : Type} (l : List (String × α)) (k : String)
    (v : α) : dictGet (dictInsert l k v) k = some v := by
  induction l with
  | nil => simp [dictInsert, dictGet]
  | cons p rest ih =>
    obtain ⟨k', v'⟩ := p
    by_cases h : k' = k
    · simp [dictInsert, dictGet, h]
    · simp [dictInsert, dictGet, h, ih]

theorem dictGet_insert_ne {α : Type} (l : List (String × α)) (k k' : String)
    (v : α) (h : k' ≠ k) : dictGet (dictInsert l k v) k' = dictGet l k' := by
  induction l with
  | nil => simp [dictInsert, dictGet, Ne.symm h]
  | cons p rest ih =>
    obtain ⟨k0, v0⟩ := p
    by_cases h0 : k0 = k
    · subst h0
      simp [dictInsert, dictGet, Ne.symm h]
    · simp [dictInsert, dictGet, h0, ih]

theorem list_files_pages_encode (pages : List (List GFile)) (acc : List GFile) :
    list_files_pages (encodePages pages) acc = some (acc ++ pages.flatten) := by
  induction pages generalizing acc with
  | nil => simp [encodePages, list_files_pages]
  | cons fs rest ih =>
    cases rest with
    | nil => simp [encodePages, list_files_pages]
    | cons fs2 rest2 => simp [encodePages, list_files_pages, ih]

theorem list_files_pages_err (ps : List (List GFile)) (rs : List PageResp)
    (acc : List GFile) :
    list_files_pages (ps.map (fun fs => PageResp.page fs true) ++ .err :: rs)
      acc = none := by
  induction ps generalizing acc with
  | nil => simp [list_files_pages]
  | cons fs rest ih => simp [list_files_pages, ih]

theorem download_foldl (dl : String → Option ByteBuf) (fs : List GFile)
    (acc : List (String × Option ByteBuf)) :
    fs.foldl (fun acc f => acc ++ [(f.name, dl f.id)]) acc
      = acc ++ fs.map (fun f => (f.name, dl f.id)) := by
  induction fs generalizing acc with
  | nil => simp
  | cons f rest ih => simp [ih]

/-- C5: when the file's fetched parent set does not contain this folder's
id, `move_file_from_folder` aborts with an uncaught `AssertionError`
(`assertAbort`, distinct from the caught-`HttpError` sentinel `retNone`)
and no update request is issued; and an update request is ever issued only
when the fetch succeeded with this folder's id among the parents. -/
theorem move_file_precondition (st : DriveFolder) (fid nfid : String)
    (parents : List String) (updRes : Except Unit (List String))
    (h : st.id ∉ parents) :
    move_file_from_folder st fid nfid (.ok parents) updRes
      = (.assertAbort, none, st)
    ∧ ∀ (getRes updRes' : Except Unit (List String)),
        (move_file_from_folder st fid nfid getRes updRes').2.1 ≠ none →
        ∃ ps, getRes = .ok ps ∧ st.id ∈ ps := by
  refine ⟨by simp [move_file_from_folder, h], ?_⟩
  intro getRes updRes' hne
  match getRes with
  | .error e => simp [move_file_from_folder] at hne
  | .ok ps =>
    by_cases hm : st.id ∈ ps
    · exact ⟨ps, rfl, hm⟩
    · simp [move_file_from_folder, hm] at hne

/-- Witness for C5: a folder with id "f1" moving a file whose parents are
["a", "b"]. -/
theorem move_file_precondition_witness :
    (DriveFolder.mk "f1" "root" none []).id ∉ (["a", "b"] : List String) ∧
    move_file_from_folder (.mk "f1" "root" none []) "file" "dest"
        (.ok ["a", "b"]) (.ok [])
      = (.assertAbort, none, .mk "f1" "root" none []) := by
  refine ⟨by decide, ?_⟩
  exact (move_file_precondition (.mk "f1" "root" none []) "file" "dest"
    ["a", "b"] (.ok []) (by decide)).1

/-- C6: whenever the listing succeeds with file list `fs`, `download_files`
returns exactly one `(name, buffer)` pair per listed file, in listing
order; the pair for a file whose download failed carries `none` in place of
the buffer, and the rest of the batch is unaffected. -/
theorem download_files_spec (st : DriveFolder) (mimetypes : List String)
    (pages : List PageResp) (dl : String → Option ByteBuf) (fs : List GFile)
    (h : (list_files st mimetypes pages).1.2 = some fs) :
    (download_files st mimetypes pages dl).1
      = .ok (fs.map (fun f => (f.name, dl f.id))) := by
  unfold download_files
  rw [h]
  simp [download_file, download_foldl]

/-- Witness for C6: two listed files, the second download fails. -/
theorem download_files_spec_witness :
    (list_files (.mk "fid" "folder" none []) []
        [.page [⟨"i1", "a"⟩, ⟨"i2", "b"⟩] false]).1.2
      = some [⟨"i1", "a"⟩, ⟨"i2", "b"⟩] ∧
    (download_files (.mk "fid" "folder" none []) []
        [.page [⟨"i1", "a"⟩, ⟨"i2", "b"⟩] false]
        (fun s => if s = "i1" then some [7] else none)).1
      = .ok [("a", some [7]), ("b", none)] := by
  refine ⟨rfl, ?_⟩
  rw [download_files_spec (.mk "fid" "folder" none []) []
    [.page [⟨"i1", "a"⟩, ⟨"i2", "b"⟩] false]
    (fun s => if s = "i1" then some [7] else none)
    [⟨"i1", "a"⟩, ⟨"i2", "b"⟩] rfl]
  decide

/-- C7: the query built with an empty MIME filter selects exactly the
non-trashed children of this folder; with a non-empty filter it appends the
conjunct holding the disjunction of exactly the given MIME types; paged
results are concatenated in page order into one sequence; a remote error on
any page makes the call return the `None` sentinel; and `list_files` sends
the query built from this folder's id and pages from the given responses. -/
theorem list_files_spec :
    (∀ fid : String,
      build_query fid [] = "'" ++ fid ++ "' in parents and trashed=false")
    ∧ (∀ (fid m : String) (rest : List String),
        build_query fid (m :: rest)
          = "'" ++ fid ++ "' in parents and trashed=false" ++ " and ("
            ++ mimeDisjunction (m :: rest) ++ ")")
    ∧ (∀ pages : List (List GFile),
        list_files_pages (encodePages pages) [] = some pages.flatten)
    ∧ (∀ (ps : List (List GFile)) (rs : List PageResp),
        list_files_pages (ps.map (fun fs => PageResp.page fs true)
          ++ .err :: rs) [] = none)
    ∧ (∀ (st : DriveFolder) (mts : List String) (pages : List PageResp),
        (list_files st mts pages).1
          = (build_query st.id mts, list_files_pages pages [])) := by
  refine ⟨fun fid => rfl, ?_, fun pages => list_files_pages_encode pages [],
    fun ps rs => list_files_pages_err ps rs [], fun st mts pages => rfl⟩
  intro fid m rest
  show (rest.foldl (fun q mt => q ++ " or mimeType='" ++ mt ++ "'")
      (("'" ++ fid ++ "' in parents and trashed=false")
        ++ " and (mimeType='" ++ m ++ "'")) ++ ")" = _
  have h2 : ("'" ++ fid ++ "' in parents and trashed=false")
        ++ " and (mimeType='" ++ m ++ "'"
      = (("'" ++ fid ++ "' in parents and trashed=false") ++ " and (")
          ++ ("mimeType='" ++ m ++ "'") := by
    rw [show (" and (mimeType='" : String) = " and (" ++ "mimeType='" from rfl]
    simp only [str_append_assoc]
  rw [h2, build_query_foldl]

/-- C8: when the remote creation call succeeds and the wrapper node is
constructed, `create_subfolder` returns the new node and registers it in
the children dict under the given name — overwriting any prior entry with
that name while leaving every other key's entry untouched; when the remote
call fails it returns the `None` sentinel and the children dict is
unchanged. -/
theorem create_subfolder_spec (st : DriveFolder) (nm new_id : String)
    (tree : RemoteTree) (node : DriveFolder)
    (h : construct new_id nm (some st.id) tree = .ok node) :
    (create_subfolder st nm (some new_id) tree).1 = .ok (some node)
    ∧ dictGet (create_subfolder st nm (some new_id) tree).2.children nm
        = some node
    ∧ (∀ k, k ≠ nm →
        dictGet (create_subfolder st nm (some new_id) tree).2.children k
          = dictGet st.children k)
    ∧ (∀ tree' : RemoteTree,
        create_subfolder st nm none tree' = (.ok none, st)) := by
  refine ⟨by simp [create_subfolder, h], ?_, ?_,
    fun tree' => by simp [create_subfolder]⟩
  · simp [create_subfolder, h, DriveFolder.children, dictGet_insert_self]
  · intro k hk
    simp [create_subfolder, h, DriveFolder.children,
      dictGet_insert_ne _ _ _ _ hk]

/-- Witness for C8: creating "sub" under a folder that already has a child
named "sub" — the dict entry is overwritten with the new node. -/
theorem create_subfolder_spec_witness :
    construct "nid" "sub" (some "pid") (.ok [])
      = .ok (.mk "nid" "sub" (some "pid") []) ∧
    dictGet (create_subfolder
        (.mk "pid" "p" none [("sub", .mk "oldid" "sub" (some "pid") [])])
        "sub" (some "nid") (.ok [])).2.children "sub"
      = some (.mk "nid" "sub" (some "pid") []) := by
  have h : construct "nid" "sub" (some "pid") (.ok [])
      = .ok (.mk "nid" "sub" (some "pid") []) := by
    simp [construct, constructChildren]
  exact ⟨h, (create_subfolder_spec
    (.mk "pid" "p" none [("sub", .mk "oldid" "sub" (some "pid") [])])
    "sub" "nid" (.ok []) (.mk "nid" "sub" (some "pid") []) h).2.1⟩

/-- C9: when the folder-listing call has failed (`list_files` returned the
`None` sentinel), recursive `DriveFolder` construction and `download_files`
do not themselves return a sentinel or an empty result — iterating over
`None` raises an uncaught `TypeError` (`crash`); when the listing succeeds,
`download_files` returns a normal (`ok`) batch. -/
theorem listing_failure_crashes :
    (∀ (fid nm : String) (p : Option String),
      construct fid nm p .fail = .crash)
    ∧ (∀ (st : DriveFolder) (mts : List String) (pages : List PageResp)
        (dl : String → Option ByteBuf),
        (list_files st mts pages).1.2 = none →
        (download_files st mts pages dl).1 = .crash)
    ∧ (∀ (st : DriveFolder) (mts : List String) (pages : List PageResp)
        (dl : String → Option ByteBuf) (fs : List GFile),
        (list_files st mts pages).1.2 = some fs →
        ∃ l, (download_files st mts pages dl).1 = .ok l) := by
  refine ⟨?_, ?_, ?_⟩
  · intro fid nm p
    simp [construct]
  · intro st mts pages dl h
    unfold download_files
    rw [h]
  · intro st mts pages dl fs h
    unfold download_files
    rw [h]
    exact ⟨_, rfl⟩

/-- Witness for C9: a single errored page makes the listing `None` and
`download_files` crash. -/
theorem listing_failure_crashes_witness :
    (list_files (.mk "i" "n" none []) [] [.err]).1.2 = none ∧
    (download_files (.mk "i" "n" none []) [] [.err] (fun _ => none)).1
      = .crash := by
  refine ⟨rfl, ?_⟩
  exact listing_failure_crashes.2.1 (.mk "i" "n" none []) [] [.err]
    (fun _ => none) rfl

/-- C10: every modelled `DriveFolder` operation other than construction and
`create_subfolder` — `list_files`, `download_file`, `download_files`,
`upload_file`, `upload_files`, `upload_files_from_dir`,
`move_file_from_folder` — returns the node's local state (id, name, parent,
children) unchanged on every path; `create_subfolder` either leaves it
unchanged or (exactly when it returns a new node) replaces only the
children dict entry for the created name. -/
theorem folder_ops_frame (st : DriveFolder) (mts : List String)
    (pages : List PageResp) (fid nfid dirp fp nn nm : String)
    (dl : String → Option ByteBuf) (env : String → Option String)
    (paths : List String) (entries : List (String × Bool))
    (getRes updRes : Except Unit (List String))
    (createRes : Option String) (tree : RemoteTree) :
    (list_files st mts pages).2 = st
    ∧ (download_file st fid dl).2 = st
    ∧ (download_files st mts pages dl).2 = st
    ∧ (upload_file st fp nn createRes).2 = st
    ∧ (upload_files st paths env).2 = st
    ∧ (upload_files_from_dir st dirp entries env).2 = st
    ∧ (move_file_from_folder st fid nfid getRes updRes).2.2 = st
    ∧ ((create_subfolder st nm createRes tree).2 = st
       ∨ ∃ node,
           (create_subfolder st nm createRes tree).1 = .ok (some node)
           ∧ (create_subfolder st nm createRes tree).2
               = .mk st.id st.name st.parent (dictInsert st.children nm node)) := by
  refine ⟨rfl, rfl, ?_, rfl, rfl, rfl, ?_, ?_⟩
  · unfold download_files
    cases (list_files st mts pages).1.2 with
    | none => rfl
    | some fs => rfl
  · cases getRes with
    | error e => rfl
    | ok ps =>
      simp only [move_file_from_folder]
      by_cases hm : st.id ∈ ps
      · cases updRes with
        | error e => simp [hm]
        | ok qs => simp [hm]
      · simp [hm]
  · cases createRes with
    | none => exact Or.inl rfl
    | some nid =>
      cases hc : construct nid nm (some st.id) tree with
      | crash =>
        left
        simp only [create_subfolder, hc]
      | ok node =>
        right
        exact ⟨node, by simp only [create_subfolder, hc],
          by simp only [create_subfolder, hc]⟩

end DriveFolder

namespace Spreadsheet

/-- One unfolding of the loop: after an iteration the new `num` is
`num % 26 ≤ 25`, so the loop body runs at most once. -/
theorem colLoop_spec (num : Nat) (letter : String) :
    colLoop num letter =
      if 25 < num then
        (letter.push (Char.ofNat (65 + num / 26 - 1))).push
          (Char.ofNat (65 + (num - num / 26 * 26)))
      else
        letter.push (Char.ofNat (65 + num)) := by
  rw [colLoop]
  by_cases h : 25 < num
  · rw [if_pos h, if_pos h, colLoop, if_neg (by omega)]
  · rw [if_neg h, if_neg h]

/-- C1: `col_num_to_letter` agrees with the bijective base-26 column label on
the whole two-letter range (0 ↦ "A" ... 701 ↦ "ZZ"), but at the first
three-letter input 702 — where the label should be "AAA" — the loop runs only
once (the updated `num` is `num % 26 ≤ 25`), emitting `chr(64 + 702 / 26)` =
`chr(91)` = `'['`, which is not a letter at all: the code returns "[A". -/
theorem col_num_to_letter_boundary :
    col_num_to_letter 0 = "A" ∧ col_num_to_letter 25 = "Z" ∧
    col_num_to_letter 26 = "AA" ∧ col_num_to_letter 27 = "AB" ∧
    col_num_to_letter 51 = "AZ" ∧ col_num_to_letter 52 = "BA" ∧
    col_num_to_letter 701 = "ZZ" ∧ col_num_to_letter 702 = "[A" := by
  simp only [col_num_to_letter, colLoop_spec]
  decide

/-- C2: the range `write_to_sheet` computes does not span
`len(values[0])` columns starting at the start column: `end_cell`'s column
component is built from `start_cell[0]` (the row offset).  For a 1×1 write at
start (1, 0) the computed range is "'S'!A2:B2" (two columns) instead of
"'S'!A2:A2"; for a 1×1 write at start (1, 2) — expected "'S'!C2:C2" — the
computed end column 1 is left of the start column 2 and the `assert` in
`sheets_range` aborts the call (`none`). -/
theorem write_to_sheet_range_bug :
    write_to_sheet_range "S" [["x"]] (1, 0) = some "'S'!A2:B2" ∧
    write_to_sheet_range "S" [["x"]] (1, 2) = none := by
  simp only [write_to_sheet_range, sheets_range, col_num_to_letter, colLoop_spec]
  decide

/-- C3: for any zero-based inclusive coordinates with `start.row ≤ end.row`
and `start.col ≤ end.col`, `sheets_range` returns exactly
`ColLetter(start.col) ++ (start.row+1) ++ ":" ++ ColLetter(end.col) ++
(end.row+1)`, where ColLetter is the module's own `col_num_to_letter`. -/
theorem sheets_range_formula (s e : Nat × Nat)
    (hr : s.1 ≤ e.1) (hc : s.2 ≤ e.2) :
    sheets_range (s, e) =
      some (col_num_to_letter s.2 ++ (s.1 + 1).repr ++ ":" ++
            col_num_to_letter e.2 ++ (e.1 + 1).repr) := by
  simp [sheets_range, hr, hc]

/-- Witness for C3 at the spec's concrete examples. -/
theorem sheets_range_formula_witness :
    sheets_range ((0, 0), (0, 0)) = some "A1:A1" ∧
    sheets_range ((0, 0), (3, 4)) = some "A1:E4" := by
  constructor
  · rw [sheets_range_formula (0, 0) (0, 0) (by decide) (by decide)]
    simp only [col_num_to_letter, colLoop_spec]
    decide
  · rw [sheets_range_formula (0, 0) (3, 4) (by decide) (by decide)]
    simp only [col_num_to_letter, colLoop_spec]
    decide

/-- C4: `sheets_range` aborts via assertion (modelled `none`) exactly when
`start.row > end.row` or `start.col > end.col`; for all other inputs the
assertions pass and a string is returned. -/
theorem sheets_range_assertion (s e : Nat × Nat) :
    sheets_range (s, e) = none ↔ (e.1 < s.1 ∨ e.2 < s.2) := by
  by_cases h1 : s.1 ≤ e.1 <;> by_cases h2 : s.2 ≤ e.2 <;>
    simp [sheets_range, h1, h2] <;> omega

end Spreadsheet

end GDrive
